import Mathlib

/-!
Shallow embedding of `tools/integration-tests/tester/framework/docker.go`
from the Tsangares/hornet repository.

The Go file wraps a Docker engine client: role configuration builders
(entry node, peer, chaos agent), container lifecycle operations, an
existing-container resolver, and IP/log helpers.  Remote engine calls are
modelled by an `EngineReq` value describing exactly the request the Go
code sends, with engine responses passed in as explicit arguments.
Go variadic slices are modelled as `Option (List _)` (`none` = the caller
passed nothing, i.e. a nil slice); a Go panic (out-of-bounds index) is
modelled by an `Option` result being `none`.
-/

/-- Time durations, as in Go `time.Duration`: a count of nanoseconds. -/
def timeNanosecond : Int := 1

/-- Go `time.Second` in nanoseconds. -/
def timeSecond : Int := 1000000000 * timeNanosecond

/-- Go `time.Minute` in nanoseconds. -/
def timeMinute : Int := 60 * timeSecond

/-- Container configuration, the fields of Docker's `container.Config`
used by `docker.go`: image reference, exposed ports, environment and
command-line argument list. -/
structure ContainerConfig where
  Image : String
  ExposedPorts : List String
  Env : List String
  Cmd : List String
deriving DecidableEq

/-- Host configuration (`container.HostConfig`): only the `Binds` field is
used by `docker.go`. -/
structure HostConfig where
  Binds : List String
deriving DecidableEq

/-- Options passed to the engine's log endpoint
(`types.ContainerLogsOptions`). -/
structure ContainerLogsOptions where
  ShowStdout : Bool
  ShowStderr : Bool
  Since : String
  Timestamps : Bool
  Follow : Bool
  Tail : String
  Details : Bool
deriving DecidableEq

/-- One entry of the engine's container list (`types.Container`): the
fields `ID` and `Names` read by `NewDockerContainerFromExisting`. -/
structure ContainerSummary where
  ID : String
  Names : List String
deriving DecidableEq

/-- Per-network endpoint data inside an inspect response: the `IPAddress`
field read by `IP`. -/
structure NetworkEndpoint where
  IPAddress : String
deriving DecidableEq

/-- The `NetworkSettings.Networks` map of an inspect response, as an
association list from network name to endpoint data (Docker map keys are
unique). -/
structure NetworkSettings where
  Networks : List (String × NetworkEndpoint)
deriving DecidableEq

/-- The `State` part of an inspect response: the `ExitCode` field read by
`ExitStatus`. -/
structure ContainerState where
  ExitCode : Int
deriving DecidableEq

/-- A container inspect response (`types.ContainerJSON`), restricted to
the fields `docker.go` reads. -/
structure ContainerInspect where
  state : ContainerState
  networkSettings : NetworkSettings
deriving DecidableEq

/-- A request sent to the Docker engine, recording exactly the arguments
the Go code passes to the corresponding client call. -/
inductive EngineReq where
  | containerList
  | containerCreate (name : String) (config : ContainerConfig) (hostConfig : Option HostConfig)
  | containerStart (id : String)
  | containerStop (id : String) (timeout : Int)
  | containerRemove (id : String) (force : Bool)
  | containerInspect (id : String)
  | containerLogs (id : String) (options : ContainerLogsOptions)
  | networkConnect (networkID : String) (id : String)
  | networkDisconnect (networkID : String) (id : String) (force : Bool)
deriving DecidableEq

/-- The container identifier a request targets (`none` for requests that
do not name an existing container). -/
def reqTargetId : EngineReq → Option String
  | .containerList => none
  | .containerCreate _ _ _ => none
  | .containerStart i => some i
  | .containerStop i _ => some i
  | .containerRemove i _ => some i
  | .containerInspect i => some i
  | .containerLogs i _ => some i
  | .networkConnect _ i => some i
  | .networkDisconnect _ i _ => some i

/-- A wrapper object for a Docker container (`DockerContainer` in Go).
The borrowed client connection is left implicit; only the mutable `id`
field matters for the embedded behaviour. -/
structure DockerContainer where
  id : String
deriving DecidableEq

/-- Constants of the `framework` package referenced by `docker.go` but
defined in repository files not provided under `src/`.  Modelled from the
spec: the spec names them only as configured topology parameters
(coordinator address, milestone interval, security level, Merkle-tree
depth, proof-of-work difficulty, API port, entry-node disabled plugins,
coordinator seed) without fixing values, so they are carried as free
parameters and every theorem quantifies over them. -/
structure FrameworkParams where
  disabledPluginsEntryNode : String
  coordinatorSeed : String
  coordinatorAddress : String
  coordinatorIntervalSeconds : Int
  coordinatorSecurityLevel : Int
  coordinatorMerkleTreeDepth : Int
  ParaPoWDifficulty : Int
  APIPort : Int
deriving DecidableEq

/-- The `NodeConfig` value consumed by `CreateHornetPeer`.  Modelled from
the spec (the defining Go file is not under `src/`): the spec describes a
peer role configuration carrying a name, disabled plugins, an optional
coordinator role, a snapshot file path, an autopeering seed and the entry
node's public key and host, matching exactly the fields `docker.go`
reads. -/
structure NodeConfig where
  Name : String
  DisabledPlugins : String
  Coordinator : Bool
  SnapshotFilePath : String
  AutopeeringSeed : String
  EntryNodePublicKey : String
  EntryNodeHost : String
deriving DecidableEq

/-- A single quote character (U+0027), used by the Go error format
`"could not find container with name '%s'"`. -/
def singleQuote : String := String.singleton (Char.ofNat 39)

/-- The loop body of `NewDockerContainerFromExisting`: scan the container
list, returning a handle for the first container whose `Names[0]` equals
`name`.  Reading `Names[0]` of an entry with an empty `Names` slice is a
Go panic, modelled as `none`. -/
def findContainer (name : String) : List ContainerSummary → Option (Except String DockerContainer)
  | [] => some (.error ("could not find container with name " ++ singleQuote ++ name ++ singleQuote))
  | cont :: rest =>
    match cont.Names.head? with
    | none => none
    | some n0 =>
      if n0 = name then some (.ok { id := cont.ID })
      else findContainer name rest

/-- `NewDockerContainerFromExisting`: list the containers (the engine's
answer `listResult` is passed in) and resolve by name.  The outer `Option`
is `none` exactly when the Go code panics on an empty `Names` slice. -/
def NewDockerContainerFromExisting (listResult : Except String (List ContainerSummary)) (name : String) : Option (Except String DockerContainer) :=
  match listResult with
  | .error e => some (.error e)
  | .ok containers => findContainer name containers

/-- `CreateContainer`: build the creation request (the variadic
`hostConfigs` contributes its first element when non-empty) and, on a
successful engine response, record the returned container identifier on
the handle. -/
def DockerContainer.CreateContainer (d : DockerContainer) (name : String) (containerConfig : ContainerConfig) (hostConfigs : List HostConfig) (resp : Except String String) : EngineReq × DockerContainer × Except String Unit :=
  let hostConfig : Option HostConfig := hostConfigs.head?
  (.containerCreate name containerConfig hostConfig,
    match resp with
    | .error err => (d, .error err)
    | .ok respID => ({ d with id := respID }, .ok ()))

/-- The container configuration built by `CreateHornetEntryNode`. -/
def hornetEntryNodeConfig (P : FrameworkParams) (seed : String) : ContainerConfig :=
  { Image := "hornet:dev"
    ExposedPorts := []
    Env := []
    Cmd := [
      "--logger.level=debug",
      "--node.disablePlugins=" ++ P.disabledPluginsEntryNode,
      "--autopeering.entryNodes=",
      "--autopeering.seed=base58:" ++ seed] }

/-- `CreateHornetEntryNode`: create a container with the Hornet entry
node's configuration (no host config is passed). -/
def DockerContainer.CreateHornetEntryNode (d : DockerContainer) (P : FrameworkParams) (name seed : String) (resp : Except String String) : EngineReq × DockerContainer × Except String Unit :=
  d.CreateContainer name (hornetEntryNodeConfig P seed) [] resp

/-- The container configuration built by `CreateHornetPeer`.  The
immediately-invoked plugin-list closure is `strings.Join` over a list
holding `"Coordinator"` exactly when `config.Coordinator` is set. -/
def hornetPeerConfig (P : FrameworkParams) (config : NodeConfig) : ContainerConfig :=
  { Image := "hornet:dev"
    ExposedPorts := [toString P.APIPort ++ "/tcp"]
    Env := ["COO_SEED=" ++ P.coordinatorSeed]
    Cmd := [
      "--logger.level=debug",
      "--node.disablePlugins=" ++ config.DisabledPlugins,
      "--node.enablePlugins=" ++ String.intercalate "," (if config.Coordinator then ["Coordinator"] else []),
      "--coordinator.mwm=" ++ toString P.ParaPoWDifficulty,
      "--coordinator.address=" ++ P.coordinatorAddress,
      "--coordinator.intervalSeconds=" ++ toString P.coordinatorIntervalSeconds,
      "--coordinator.securityLevel=" ++ toString P.coordinatorSecurityLevel,
      "--coordinator.merkleTreeDepth=" ++ toString P.coordinatorMerkleTreeDepth,
      "--snapshots.loadType=global",
      "--snapshots.global.path=snapshot.csv",
      "--snapshots.global.index=0",
      "--snapshots.local.path=" ++ config.SnapshotFilePath,
      "--httpAPI.bindAddress=" ++ toString P.APIPort,
      "--autopeering.seed=base58:" ++ config.AutopeeringSeed,
      "--autopeering.entryNodes=" ++ config.EntryNodePublicKey ++ "@" ++ config.EntryNodeHost ++ ":14626"] }

/-- `CreateHornetPeer`: create a container with the Hornet peer's
configuration, binding the shared testing-assets volume. -/
def DockerContainer.CreateHornetPeer (d : DockerContainer) (P : FrameworkParams) (config : NodeConfig) (resp : Except String String) : EngineReq × DockerContainer × Except String Unit :=
  d.CreateContainer config.Name (hornetPeerConfig P config)
    [{ Binds := ["hornet-testing-assets:/assets:rw"] }] resp

/-- The Pumba command line built by `CreatePumba`: base flags, then one
target flag appended per IP by the loop, then the loss profile slice. -/
def pumbaCmd (containerName : String) (targetIPs : List String) : List String :=
  let cmd := ["--log-level=debug", "netem", "--duration=100m"]
  let cmd := targetIPs.foldl (fun acc ip => acc ++ ["--target=" ++ ip]) cmd
  cmd ++ ["--tc-image=gaiadocker/iproute2", "loss", "--percent=100", containerName]

/-- The container configuration built by `CreatePumba`. -/
def pumbaConfig (containerName : String) (targetIPs : List String) : ContainerConfig :=
  { Image := "gaiaadm/pumba:0.7.2"
    ExposedPorts := []
    Env := []
    Cmd := pumbaCmd containerName targetIPs }

/-- `CreatePumba`: create a new container with Pumba configuration,
binding the Docker socket read-only. -/
def DockerContainer.CreatePumba (d : DockerContainer) (name containerName : String) (targetIPs : List String) (resp : Except String String) : EngineReq × DockerContainer × Except String Unit :=
  d.CreateContainer name (pumbaConfig containerName targetIPs)
    [{ Binds := ["/var/run/docker.sock:/var/run/docker.sock:ro"] }] resp

/-- `ConnectToNetwork`: attach the container to a network. -/
def DockerContainer.ConnectToNetwork (d : DockerContainer) (networkID : String) : EngineReq × DockerContainer :=
  (.networkConnect networkID d.id, d)

/-- `DisconnectFromNetwork`: detach the container from a network, forced. -/
def DockerContainer.DisconnectFromNetwork (d : DockerContainer) (networkID : String) : EngineReq × DockerContainer :=
  (.networkDisconnect networkID d.id true, d)

/-- `Start`: request the engine start the container. -/
def DockerContainer.Start (d : DockerContainer) : EngineReq × DockerContainer :=
  (.containerStart d.id, d)

/-- `Remove`: force-remove the container. -/
def DockerContainer.Remove (d : DockerContainer) : EngineReq × DockerContainer :=
  (.containerRemove d.id true, d)

/-- `Stop`: the duration defaults to 3 minutes and is replaced by
`optionalTimeout[0]` whenever the variadic slice is non-nil; indexing a
non-nil empty slice is a Go panic, modelled as `none`. -/
def DockerContainer.Stop (d : DockerContainer) (optionalTimeout : Option (List Int)) : Option (EngineReq × DockerContainer) :=
  let duration : Option Int :=
    match optionalTimeout with
    | none => some (3 * timeMinute)
    | some ts => ts.head?
  duration.map (fun du => (.containerStop d.id du, d))

/-- `ExitStatus`: inspect the container (the engine's answer is passed
in); on error return `(-1, err)`, otherwise the state's exit code. -/
def DockerContainer.ExitStatus (d : DockerContainer) (inspectResult : Except String ContainerInspect) : EngineReq × DockerContainer × (Int × Option String) :=
  (.containerInspect d.id, d,
    match inspectResult with
    | .error err => (-1, some err)
    | .ok resp => (resp.state.ExitCode, none))

/-- The range loop of `IP` over the `Networks` map: first entry whose name
equals the requested network. -/
def ipLookup (network : String) : List (String × NetworkEndpoint) → Option String
  | [] => none
  | (name, v) :: rest =>
    if name = network then some v.IPAddress else ipLookup network rest

/-- The value `IP` returns: a transport error is returned as-is, otherwise
the address of the requested network, or a formatted
could-not-be-determined error naming the network. -/
def ipResult (inspectResult : Except String ContainerInspect) (network : String) : Except String String :=
  match inspectResult with
  | .error err => .error err
  | .ok resp =>
    match ipLookup network resp.networkSettings.Networks with
    | some address => .ok address
    | none => .error ("IP address in " ++ network ++ " could not be determined")

/-- `IP`: inspect the container (the engine's answer is passed in) and
compute the address for the requested network. -/
def DockerContainer.IP (d : DockerContainer) (inspectResult : Except String ContainerInspect) (network : String) : EngineReq × DockerContainer × Except String String :=
  (.containerInspect d.id, d, ipResult inspectResult network)

/-- The fixed options `Logs` passes to the engine's log endpoint. -/
def logsOptions : ContainerLogsOptions :=
  { ShowStdout := true
    ShowStderr := true
    Since := ""
    Timestamps := false
    Follow := false
    Tail := ""
    Details := false }

/-- `Logs`: request the container's logs with the fixed options. -/
def DockerContainer.Logs (d : DockerContainer) : EngineReq × DockerContainer :=
  (.containerLogs d.id logsOptions, d)

/-- Boolean test that `p` is a prefix of `s`, comparing character data. -/
def strHasPre (p s : String) : Bool := p.data.isPrefixOf s.data

/-! ## Concrete sample values used by witnesses and counterexamples -/

/-- A sample handle already bound to a container identifier. -/
def dDemo : DockerContainer := { id := "cid0" }

/-- A sample engine container list holding one container named `peer-1`. -/
def csDemo : List ContainerSummary := [{ ID := "idA", Names := ["/peer-1"] }]

/-- A sample inspect response: attached to networks `netA` and `netB`. -/
def inspectDemo : ContainerInspect :=
  { state := { ExitCode := 0 }
    networkSettings :=
      { Networks := [("netA", { IPAddress := "10.0.0.2" }),
                     ("netB", { IPAddress := "10.0.0.3" })] } }

/-- Sample values for the framework constants. -/
def paramsDemo : FrameworkParams :=
  { disabledPluginsEntryNode := "dashboard,spammer"
    coordinatorSeed := "COOSEED"
    coordinatorAddress := "COOADDRESS"
    coordinatorIntervalSeconds := 10
    coordinatorSecurityLevel := 2
    coordinatorMerkleTreeDepth := 18
    ParaPoWDifficulty := 9
    APIPort := 14265 }

/-- A sample peer configuration with the coordinator role disabled. -/
def peerCfgNoCoordinator : NodeConfig :=
  { Name := "peer-1"
    DisabledPlugins := "dashboard"
    Coordinator := false
    SnapshotFilePath := "assets/snapshot.csv"
    AutopeeringSeed := "SEED1"
    EntryNodePublicKey := "PUBKEY"
    EntryNodeHost := "entry-node" }

/-! ## Helper lemmas -/

/-- Folding an append of singletons over a list is append of the map. -/
theorem foldl_append_singleton (f : String → String) (l : List String) (base : List String) :
    l.foldl (fun acc x => acc ++ [f x]) base = base ++ l.map f := by
  induction l generalizing base with
  | nil => simp
  | cons x xs ih => simp [List.foldl_cons, ih, List.append_assoc]

/-- Characterisation of the resolver loop when every listed container has at
least one name: it returns the first container whose primary name matches,
or the formatted not-found error. -/
theorem findContainer_spec (name : String) (cs : List ContainerSummary)
    (h : ∀ c ∈ cs, c.Names ≠ []) :
    findContainer name cs =
      some (match cs.find? (fun c => c.Names.head? == some name) with
        | some cont => Except.ok { id := cont.ID }
        | none => Except.error
            ("could not find container with name " ++ singleQuote ++ name ++ singleQuote)) := by
  induction cs with
  | nil => rfl
  | cons c rest ih =>
    have hc : c.Names ≠ [] := h c (List.mem_cons_self c rest)
    have hrest : ∀ x ∈ rest, x.Names ≠ [] := fun x hx => h x (List.mem_cons_of_mem c hx)
    obtain ⟨n0, hN⟩ : ∃ n0, c.Names.head? = some n0 := by
      cases hcn : c.Names.head? with
      | none => exact absurd (List.head?_eq_none_iff.mp hcn) hc
      | some x => exact ⟨x, rfl⟩
    rw [findContainer, hN]
    by_cases he : n0 = name
    · subst he
      simp [List.find?_cons, hN]
    · simp only [List.find?_cons, hN]
      have : (some n0 == some name) = false := by simp [he]
      rw [this]
      simp only [he, if_false]
      exact ih hrest

/-- The lookup loop of `IP` finds the entry of a network the container is
attached to (network names in an inspect response are unique). -/
theorem ipLookup_of_mem (network : String) (v : NetworkEndpoint)
    (l : List (String × NetworkEndpoint)) (hmem : (network, v) ∈ l)
    (hnodup : (l.map Prod.fst).Nodup) :
    ipLookup network l = some v.IPAddress := by
  induction l with
  | nil => cases hmem
  | cons p rest ih =>
    obtain ⟨n, w⟩ := p
    rw [List.map_cons, List.nodup_cons] at hnodup
    rcases List.mem_cons.mp hmem with heq | hmem2
    · obtain ⟨h1, h2⟩ := Prod.mk.injEq .. ▸ heq
      rw [ipLookup]
      simp [h1.symm, h2]
    · rw [ipLookup]
      have hne : n ≠ network := by
        intro he
        exact hnodup.1 (he ▸ List.mem_map.mpr ⟨(network, v), hmem2, rfl⟩)
      simp only [hne, if_false]
      exact ih hmem2 hnodup.2

/-- The lookup loop of `IP` fails for a network the container is not
attached to. -/
theorem ipLookup_of_not_mem (network : String) (l : List (String × NetworkEndpoint))
    (hnot : network ∉ l.map Prod.fst) :
    ipLookup network l = none := by
  induction l with
  | nil => rfl
  | cons p rest ih =>
    obtain ⟨n, w⟩ := p
    rw [List.map_cons] at hnot
    have hne : n ≠ network := fun he => hnot (he ▸ List.mem_cons_self n _)
    rw [ipLookup]
    simp only [hne, if_false]
    exact ih (fun hm => hnot (List.mem_cons_of_mem n hm))

/-! ## Claim theorems -/

/-- Claim C6: `Stop` invoked with no explicit timeout passes a 3-minute
graceful-stop duration to the engine; invoked with an explicit timeout value
(for example 5 seconds) it passes exactly that value instead of the
default. -/
theorem Stop_timeout_default_and_explicit (d : DockerContainer) :
    d.Stop none = some (.containerStop d.id (3 * timeMinute), d) ∧
    (∀ t : Int, d.Stop (some [t]) = some (.containerStop d.id t, d)) ∧
    d.Stop (some [5 * timeSecond]) = some (.containerStop d.id (5 * timeSecond), d) :=
  ⟨rfl, fun _ => rfl, rfl⟩

/-- Claim C9: `Stop` reads index 0 of the variadic timeout slice whenever the
slice is non-nil, so a non-nil slice must be non-empty for the access to be
in bounds; a non-nil empty slice reaches the out-of-bounds branch (a Go
panic, modelled as `none`). -/
theorem Stop_nonnil_variadic_indexes_first (d : DockerContainer) :
    (∀ ts : List Int, d.Stop (some ts) = ts.head?.map (fun t => (.containerStop d.id t, d))) ∧
    d.Stop (some []) = none ∧
    (∀ ts : List Int, ts ≠ [] → (d.Stop (some ts)).isSome = true) := by
  refine ⟨fun ts => rfl, rfl, fun ts hne => ?_⟩
  cases ts with
  | nil => exact absurd rfl hne
  | cons t rest => rfl

/-- Witness for C9 at a concrete handle and timeout slice. -/
theorem Stop_nonnil_variadic_indexes_first_witness :
    dDemo.Stop (some []) = none ∧ (dDemo.Stop (some [5 * timeSecond])).isSome = true :=
  ⟨(Stop_nonnil_variadic_indexes_first dDemo).2.1,
   (Stop_nonnil_variadic_indexes_first dDemo).2.2 [5 * timeSecond] (by decide)⟩

/-- Claim C10: the resolver reads the first element of each listed
container's `Names` slice without checking it is non-empty: when every entry
has at least one name the lookup is in bounds, and an entry with an empty
`Names` slice reaches the out-of-bounds branch (a Go panic, modelled as
`none`). -/
theorem resolver_reads_first_name_unchecked (name : String) :
    (∀ cs : List ContainerSummary, (∀ c ∈ cs, c.Names ≠ []) →
      (NewDockerContainerFromExisting (.ok cs) name).isSome = true) ∧
    NewDockerContainerFromExisting (.ok [{ ID := "id9", Names := [] }]) name = none := by
  refine ⟨fun cs h => ?_, rfl⟩
  show (findContainer name cs).isSome = true
  rw [findContainer_spec name cs h]
  rfl

/-- Witness for C10 at a concrete container list. -/
theorem resolver_reads_first_name_unchecked_witness :
    (NewDockerContainerFromExisting (.ok csDemo) "/peer-1").isSome = true :=
  (resolver_reads_first_name_unchecked "/peer-1").1 csDemo (by decide)

/-- Claim C5: resolving an existing container by name returns a handle whose
identifier is the id of the first listed container whose primary name
matches exactly; with no match (in particular on an empty list) it fails
with a not-found error whose message names the searched value. -/
theorem NewDockerContainerFromExisting_first_match (name : String)
    (cs : List ContainerSummary) (h : ∀ c ∈ cs, c.Names ≠ []) :
    (∀ cont, cs.find? (fun c => c.Names.head? == some name) = some cont →
      NewDockerContainerFromExisting (.ok cs) name = some (.ok { id := cont.ID })) ∧
    (cs.find? (fun c => c.Names.head? == some name) = none →
      ∃ pre po, NewDockerContainerFromExisting (.ok cs) name = some (.error (pre ++ name ++ po))) := by
  have hspec := findContainer_spec name cs h
  constructor
  · intro cont hfind
    show findContainer name cs = _
    rw [hspec, hfind]
  · intro hfind
    refine ⟨"could not find container with name " ++ singleQuote, singleQuote, ?_⟩
    show findContainer name cs = _
    rw [hspec, hfind]

/-- Witness for C5: a singleton list resolves to its container id, and the
empty list fails with an error naming the searched value. -/
theorem NewDockerContainerFromExisting_first_match_witness :
    NewDockerContainerFromExisting (.ok csDemo) "/peer-1" = some (.ok { id := "idA" }) ∧
    (∃ pre po, NewDockerContainerFromExisting (.ok ([] : List ContainerSummary)) "nope" =
      some (.error (pre ++ "nope" ++ po))) :=
  ⟨(NewDockerContainerFromExisting_first_match "/peer-1" csDemo (by decide)).1
      { ID := "idA", Names := ["/peer-1"] } (by decide),
   (NewDockerContainerFromExisting_first_match "nope" [] (by simp)).2 rfl⟩

/-- Claim C4: `IP` returns the assigned address of the named network when the
container is attached to it; when it is not attached, `IP` fails with a
not-found error whose message carries the requested network name, while a
transport-level inspection failure is returned as-is. -/
theorem IP_network_lookup (d : DockerContainer) (network : String) :
    (∀ e, (d.IP (.error e) network).2.2 = .error e) ∧
    (∀ resp v, (network, v) ∈ resp.networkSettings.Networks →
      (resp.networkSettings.Networks.map Prod.fst).Nodup →
      (d.IP (.ok resp) network).2.2 = .ok v.IPAddress) ∧
    (∀ resp, network ∉ resp.networkSettings.Networks.map Prod.fst →
      ∃ pre po, (d.IP (.ok resp) network).2.2 = .error (pre ++ network ++ po)) ∧
    (∀ r, (d.IP r network).1 = .containerInspect d.id) := by
  refine ⟨fun e => rfl, ?_, ?_, fun r => rfl⟩
  · intro resp v hmem hnodup
    show ipResult (.ok resp) network = _
    rw [ipResult, ipLookup_of_mem network v _ hmem hnodup]
  · intro resp hnot
    refine ⟨"IP address in ", " could not be determined", ?_⟩
    show ipResult (.ok resp) network = _
    rw [ipResult, ipLookup_of_not_mem network _ hnot]

/-- Witness for C4 on a container attached to `netA` and `netB`: querying
`netA` yields its address, querying `netC` yields an error naming `netC`. -/
theorem IP_network_lookup_witness :
    (dDemo.IP (.ok inspectDemo) "netA").2.2 = .ok "10.0.0.2" ∧
    (∃ pre po, (dDemo.IP (.ok inspectDemo) "netC").2.2 = .error (pre ++ "netC" ++ po)) :=
  ⟨(IP_network_lookup dDemo "netA").2.1 inspectDemo { IPAddress := "10.0.0.2" }
      (by decide) (by decide),
   (IP_network_lookup dDemo "netC").2.2.1 inspectDemo (by decide)⟩

/-- Claim C7 counterexample: the options `Logs` passes to the engine have
`Follow = false`, so they do not select a follow-mode stream as claimed. -/
theorem Logs_follow_disabled_counterexample : ¬ (logsOptions.Follow = true) := by decide

/-- Claim C7 (amended): `Logs` requests a one-shot, non-following byte
stream of combined standard output and standard error from container start:
the options select both streams, no since bound, no tail bound, no
timestamps, no details, and follow mode off, so the stream ends once the
log content available at the time of the call is exhausted. -/
theorem Logs_options_fixed (d : DockerContainer) :
    d.Logs = (.containerLogs d.id
      { ShowStdout := true, ShowStderr := true, Since := "", Timestamps := false,
        Follow := false, Tail := "", Details := false }, d) := rfl

/-- Claim C8: every post-creation operation leaves the handle's identifier
unchanged and passes exactly that identifier to the engine, so all
operations on a handle target the same remote container. -/
theorem handle_id_immutable (d : DockerContainer) :
    (d.Start.2.id = d.id ∧ reqTargetId d.Start.1 = some d.id) ∧
    (∀ ot req d2, d.Stop ot = some (req, d2) → d2.id = d.id ∧ reqTargetId req = some d.id) ∧
    (d.Remove.2.id = d.id ∧ reqTargetId d.Remove.1 = some d.id) ∧
    (∀ r, (d.ExitStatus r).2.1.id = d.id ∧ reqTargetId (d.ExitStatus r).1 = some d.id) ∧
    (∀ r n, (d.IP r n).2.1.id = d.id ∧ reqTargetId (d.IP r n).1 = some d.id) ∧
    (d.Logs.2.id = d.id ∧ reqTargetId d.Logs.1 = some d.id) ∧
    (∀ nid, (d.ConnectToNetwork nid).2.id = d.id ∧
      reqTargetId (d.ConnectToNetwork nid).1 = some d.id) ∧
    (∀ nid, (d.DisconnectFromNetwork nid).2.id = d.id ∧
      reqTargetId (d.DisconnectFromNetwork nid).1 = some d.id) := by
  refine ⟨⟨rfl, rfl⟩, fun ot req d2 hstop => ?_, ⟨rfl, rfl⟩, fun r => ⟨rfl, rfl⟩,
    fun r n => ⟨rfl, rfl⟩, ⟨rfl, rfl⟩, fun nid => ⟨rfl, rfl⟩, fun nid => ⟨rfl, rfl⟩⟩
  cases ot with
  | none =>
    obtain ⟨h1, h2⟩ := Prod.mk.injEq .. ▸ Option.some.injEq .. ▸ hstop
    exact ⟨h2 ▸ rfl, h1 ▸ rfl⟩
  | some ts =>
    cases ts with
    | nil => exact absurd hstop (by simp [DockerContainer.Stop])
    | cons t rest =>
      obtain ⟨h1, h2⟩ := Prod.mk.injEq .. ▸ Option.some.injEq .. ▸ hstop
      exact ⟨h2 ▸ rfl, h1 ▸ rfl⟩

/-- Witness for C8: a stopped handle keeps its identifier and the stop
request targets that identifier. -/
theorem handle_id_immutable_witness :
    dDemo.id = dDemo.id ∧ reqTargetId (.containerStop "cid0" (3 * timeMinute)) = some dDemo.id :=
  (handle_id_immutable dDemo).2.1 none (.containerStop "cid0" (3 * timeMinute)) dDemo rfl

/-- Claim C1 counterexample: for a peer configuration with the coordinator
role disabled, the produced argument list still contains a coordinator
address flag (the code appends all coordinator value flags
unconditionally). -/
theorem CreateHornetPeer_disabled_coordinator_counterexample :
    peerCfgNoCoordinator.Coordinator = false ∧
    List.countP (strHasPre "--coordinator.address=")
      (hornetPeerConfig paramsDemo peerCfgNoCoordinator).Cmd = 1 := by
  exact ⟨rfl, by decide⟩

/-- Claim C1 (amended): for every parameterisation and every peer
configuration — coordinator role enabled or not — the argument list produced
by `CreateHornetPeer` contains exactly one coordinator-address flag matching
the configured address, and exactly one matching security-level,
Merkle-tree-depth, interval and proof-of-work-difficulty flag; the
coordinator role only controls whether the enable-plugins flag lists
`Coordinator`. -/
theorem CreateHornetPeer_coordinator_flags_unconditional (P : FrameworkParams) (config : NodeConfig) :
    (hornetPeerConfig P config).Cmd.filter (strHasPre "--coordinator.address=") =
      ["--coordinator.address=" ++ P.coordinatorAddress] ∧
    (hornetPeerConfig P config).Cmd.filter (strHasPre "--coordinator.securityLevel=") =
      ["--coordinator.securityLevel=" ++ toString P.coordinatorSecurityLevel] ∧
    (hornetPeerConfig P config).Cmd.filter (strHasPre "--coordinator.merkleTreeDepth=") =
      ["--coordinator.merkleTreeDepth=" ++ toString P.coordinatorMerkleTreeDepth] ∧
    (hornetPeerConfig P config).Cmd.filter (strHasPre "--coordinator.intervalSeconds=") =
      ["--coordinator.intervalSeconds=" ++ toString P.coordinatorIntervalSeconds] ∧
    (hornetPeerConfig P config).Cmd.filter (strHasPre "--coordinator.mwm=") =
      ["--coordinator.mwm=" ++ toString P.ParaPoWDifficulty] ∧
    (hornetPeerConfig P config).Cmd.filter (strHasPre "--node.enablePlugins=") =
      ["--node.enablePlugins=" ++ (if config.Coordinator then "Coordinator" else "")] := by
  refine ⟨?_, ?_, ?_, ?_, ?_, ?_⟩ <;>
    cases hc : config.Coordinator <;>
    (simp [hornetPeerConfig, strHasPre, String.data_append, List.isPrefixOf, hc,
      String.intercalate]
     try rfl)

/-- Claim C2: for every entry-node seed (and every value of the entry-node
disabled-plugin constant), the argument list produced by
`CreateHornetEntryNode` contains exactly one entry-node list flag and its
value is empty, exactly one seed flag whose value is derived from the input
seed, and no coordinator flag of any kind. -/
theorem CreateHornetEntryNode_cmd_flags (P : FrameworkParams) (seed : String) :
    (hornetEntryNodeConfig P seed).Cmd.filter (strHasPre "--autopeering.entryNodes=") =
      ["--autopeering.entryNodes="] ∧
    (hornetEntryNodeConfig P seed).Cmd.filter (strHasPre "--autopeering.seed=") =
      ["--autopeering.seed=base58:" ++ seed] ∧
    (hornetEntryNodeConfig P seed).Cmd.filter (strHasPre "--coordinator.") = [] := by
  refine ⟨?_, ?_, ?_⟩ <;>
    simp [hornetEntryNodeConfig, strHasPre, String.data_append, List.isPrefixOf]

/-- Claim C3: the Pumba command line is the base fault-injection flags, one
target flag per input IP in input order, then the fixed 100-percent-loss
profile scoped to the container name; in particular a two-element input
yields exactly two target flags. -/
theorem CreatePumba_target_flags (containerName : String) (targetIPs : List String) :
    pumbaCmd containerName targetIPs =
      ["--log-level=debug", "netem", "--duration=100m"] ++
        targetIPs.map (fun ip => "--target=" ++ ip) ++
        ["--tc-image=gaiadocker/iproute2", "loss", "--percent=100", containerName] ∧
    (strHasPre "--target=" containerName = false →
      ∀ ip1 ip2, List.countP (strHasPre "--target=") (pumbaCmd containerName [ip1, ip2]) = 2) := by
  constructor
  · rw [pumbaCmd, foldl_append_singleton, List.append_assoc]
  · intro h ip1 ip2
    simp only [strHasPre, Bool.eq_false_iff, ne_eq, List.isPrefixOf_iff_prefix] at h
    simp [pumbaCmd, strHasPre, String.data_append, List.isPrefixOf, List.countP_cons, h]

/-- Witness for C3 at a concrete container name and two concrete IPs. -/
theorem CreatePumba_target_flags_witness :
    List.countP (strHasPre "--target=") (pumbaCmd "peer-1" ["10.0.0.2", "10.0.0.3"]) = 2 :=
  (CreatePumba_target_flags "peer-1" ["10.0.0.2", "10.0.0.3"]).2 (by decide) "10.0.0.2" "10.0.0.3"
